import Mathlib

/-!
Shallow embedding of the ticketsniper route-monitoring engine
(`backend/app/services/*`, `backend/app/db/crud/crud_route.py`,
`backend/app/worker/tasks.py`, `backend/app/api/endpoints/routes.py`)
together with proofs settling the frozen claims about it.

Conventions of the embedding:
* Python exceptions become `Except` values; the exception class hierarchy
  relevant to the code's `except` clauses is the inductive `PyExn`.
* The upstream RegioJet HTTP call is modelled by its observable outcome
  (`UpstreamOutcome`): a decoded JSON body, a non-2xx status, a timeout or a
  connection error.  Every function that performs an upstream call takes the
  outcome of that call as an explicit argument.
* Database rows become Lean structures, a database state is `DB`, and each
  `commit` is the production of a new `DB` value.  Operations that commit more
  than once expose the list of successively committed (durable) states.
* Wall-clock instants are integers (epoch seconds); a Python `datetime` is a
  `Timestamp` carrying both the instant and the `date().isoformat()` rendering
  that the code embeds into booking links.
-/

namespace TicketSniper

/-- Route status enum from `app/db/models/route.py` (`RouteStatusEnum`). -/
inductive RouteStatus
  | MONITORING
  | FOUND
  | EXPIRED
deriving DecidableEq, Repr

/-- Decoded JSON values, the type of parsed upstream response bodies. -/
inductive Json
  | jnull
  | jbool (b : Bool)
  | jnum (n : Int)
  | jstr (s : String)
  | jarr (items : List Json)
  | jobj (fields : List (String × Json))

/-- Python `isinstance(x, dict)`. -/
def Json.isObj : Json → Bool
  | .jobj _ => true
  | _ => false

/-- Python `d.get(key)` on a dict: `none` models both an absent key and is
also what `d.get` yields wrapped as `some .jnull` when the key maps to null;
the distinction never matters to the code under study. -/
def Json.getKey : Json → String → Option Json
  | .jobj fields, k => fields.lookup k
  | _, _ => none

/-- FastAPI `HTTPException` payload (status code and detail message). -/
structure HTTPError where
  statusCode : Nat
  detail : String
deriving DecidableEq, Repr

/-- The exception classes distinguished by the `except` clauses of the code
under study.  `httpStatusError` is `httpx.HTTPStatusError` (raised only inside
the fetch helpers, never escaping them), `httpException` is
`fastapi.HTTPException`, and the remaining constructors are ordinary Python
exceptions that only ever hit `except Exception` handlers. -/
inductive PyExn
  | httpStatusError (statusCode : Nat)
  | httpException (e : HTTPError)
  | keyError (key : String)
  | typeError (msg : String)
  | integrityError (constraint : String)
  | parsingError (msg : String)
deriving DecidableEq, Repr

/-- Observable outcome of one HTTP GET against the RegioJet API: a 2xx
response with a decoded JSON body, a non-2xx status (on which
`response.raise_for_status()` raises `httpx.HTTPStatusError`), a timeout
(`httpx.TimeoutException`) or another transport error (`httpx.RequestError`). -/
inductive UpstreamOutcome
  | ok (body : Json)
  | httpError (statusCode : Nat)
  | timeout
  | connectError

/-- Default `REGIOJET_BOOKING_BASE_URL` from `app/core/config.py`. -/
def REGIOJET_BOOKING_BASE_URL : String := "https://regiojet.cz/"

/-- `_fetch_regiojet_api_sync` from `app/services/regiojet_api_client.py`:
converts every failure of the GET into a `fastapi.HTTPException` (timeout to
504, transport error to 503, status 400 to 400, any other non-2xx status to
502) and returns the decoded JSON body on success.  The async twin
`_fetch_regiojet_api` has identical observable behaviour. -/
def fetchRegiojetApiSync (endpoint : String) (out : UpstreamOutcome) : Except PyExn Json :=
  match out with
  | .ok body => .ok body
  | .timeout =>
      .error (.httpException ⟨504, "Regiojet API timed out (" ++ endpoint ++ ")."⟩)
  | .connectError =>
      .error (.httpException ⟨503, "Could not connect to Regiojet API (" ++ endpoint ++ ")."⟩)
  | .httpError s =>
      if s = 400 then
        .error (.httpException ⟨400, "Invalid parameters for Regiojet API (" ++ endpoint ++ ")."⟩)
      else
        .error (.httpException ⟨502, "Received an error from Regiojet API (" ++ endpoint ++ ")."⟩)

/-- A Python `datetime` value as used by the code: an instant on the UTC
timeline (for comparisons) together with the `date().isoformat()` rendering
(embedded into booking links). -/
structure Timestamp where
  epoch : Int
  dateIso : String
deriving DecidableEq, Repr

/-- A `monitored_routes` row (`MonitoredRoute` in `app/db/models/route.py`).
The `created_at` / `updated_at` server-side audit columns are never read by
the code under study and are omitted. -/
structure Route where
  id : Nat
  regiojetRouteId : String
  fromLocationId : String
  fromLocationType : String
  toLocationId : String
  toLocationType : String
  departure : Timestamp
  arrival : Option Timestamp
  status : RouteStatus
  lastCheckedAt : Option Int
deriving DecidableEq, Repr

/-- The details dictionary built by the checker when seats are available.
`arrivalTime` is only present in the synchronous variant's dictionary; the
asynchronous variant omits the key, modelled here as `none`. -/
structure AvailabilityDetails where
  freeSeatsCount : Json
  priceFrom : Option Json
  priceTo : Option Json
  bookingLink : String
  arrivalTime : Option Json

/-- `urllib.parse.urlencode` over an ordered parameter list.  Percent-escaping
of reserved characters is elided; no claim inspects the escaped rendering. -/
def urlencode (ps : List (String × String)) : String :=
  String.intercalate "&" (ps.map fun p => p.1 ++ "=" ++ p.2)

/-- Python `free_seats > 0`: numeric for `int` and `bool`, `TypeError` for any
other operand type. -/
def jsonGtZero : Json → Except PyExn Bool
  | .jnum n => .ok (decide (n > 0))
  | .jbool b => .ok b
  | _ => .error (.typeError "unsupported comparison with int")

/-- Booking deep link built by the checker on availability. -/
def bookingLinkFor (route : Route) : String :=
  REGIOJET_BOOKING_BASE_URL ++ "?" ++ urlencode
    [("departureDate", route.departure.dateIso),
     ("fromLocationId", route.fromLocationId),
     ("toLocationId", route.toLocationId),
     ("fromLocationType", route.fromLocationType),
     ("toLocationType", route.toLocationType)]

/-- Body of the `try` block of `check_route_availability_sync` after the fetch
returned a decoded body: the non-dict guard, the seat-count read with default
0, and the construction of the details dictionary when seats exist.
`wantArrival` distinguishes the sync variant (which adds `arrivalTime`). -/
def checkerBody (wantArrival : Bool) (route : Route) (body : Json) :
    Except PyExn (Bool × Option AvailabilityDetails) :=
  if body.isObj = false then .ok (false, none)
  else
    let freeSeats := (body.getKey "freeSeatsCount").getD (.jnum 0)
    match jsonGtZero freeSeats with
    | .error e => .error e
    | .ok isAvailable =>
        if isAvailable then
          .ok (true, some
            { freeSeatsCount := freeSeats
              priceFrom := body.getKey "priceFrom"
              priceTo := body.getKey "priceTo"
              bookingLink := bookingLinkFor route
              arrivalTime := if wantArrival then body.getKey "arrivalTime" else none })
        else .ok (false, none)

/-- The `except` clause chain of `check_route_availability_sync` (identical in
the async twin): `except httpx.HTTPStatusError` (404 swallowed, the rest
re-raised), then `except KeyError`, then `except Exception`.  Note that a
`fastapi.HTTPException` raised by the fetch helper matches none of the first
two clauses and is swallowed by the final generic handler. -/
def checkerExceptChain (e : PyExn) : Except PyExn (Bool × Option AvailabilityDetails) :=
  match e with
  | .httpStatusError s =>
      if s = 404 then .ok (false, none) else .error (.httpStatusError s)
  | .keyError _ => .ok (false, none)
  | _ => .ok (false, none)

/-- `check_route_availability_sync` from
`app/services/regiojet_checker_service.py`, with the outcome of the single
upstream GET passed explicitly. -/
def checkRouteAvailabilitySync (route : Route) (out : UpstreamOutcome) :
    Except PyExn (Bool × Option AvailabilityDetails) :=
  if route.regiojetRouteId = "" then .ok (false, none)
  else
    let endpoint := "/routes/" ++ route.regiojetRouteId ++ "/simple"
    let attempt : Except PyExn (Bool × Option AvailabilityDetails) :=
      match fetchRegiojetApiSync endpoint out with
      | .error e => .error e
      | .ok body => checkerBody true route body
    match attempt with
    | .ok r => .ok r
    | .error e => checkerExceptChain e

/-- `check_route_availability`, the asynchronous twin: line-for-line the same
control flow, its details dictionary merely lacks the `arrivalTime` key. -/
def checkRouteAvailability (route : Route) (out : UpstreamOutcome) :
    Except PyExn (Bool × Option AvailabilityDetails) :=
  if route.regiojetRouteId = "" then .ok (false, none)
  else
    let endpoint := "/routes/" ++ route.regiojetRouteId ++ "/simple"
    let attempt : Except PyExn (Bool × Option AvailabilityDetails) :=
      match fetchRegiojetApiSync endpoint out with
      | .error e => .error e
      | .ok body => checkerBody false route body
    match attempt with
    | .ok r => .ok r
    | .error e => checkerExceptChain e

/-- Sample route used in concrete evaluations. -/
def routeR : Route :=
  { id := 1
    regiojetRouteId := "R1"
    fromLocationId := "A"
    fromLocationType := "CITY"
    toLocationId := "B"
    toLocationType := "CITY"
    departure := ⟨1700000000, "2025-08-15"⟩
    arrival := none
    status := .MONITORING
    lastCheckedAt := none }

example :
    checkRouteAvailabilitySync routeR .timeout = .ok (false, none) := by
  rfl

example :
    checkRouteAvailabilitySync routeR (.httpError 500) = .ok (false, none) := by
  rfl

example :
    checkRouteAvailabilitySync routeR (.ok (.jobj [("freeSeatsCount", .jnum 5)])) =
      .ok (true, some
        { freeSeatsCount := .jnum 5
          priceFrom := none
          priceTo := none
          bookingLink := "https://regiojet.cz/?departureDate=2025-08-15&fromLocationId=A&toLocationId=B&fromLocationType=CITY&toLocationType=CITY"
          arrivalTime := none }) := by
  rfl

/-- A `users` row restricted to the fields the monitoring engine reads. -/
structure UserRec where
  id : Nat
  email : String
  isVerified : Bool
deriving DecidableEq, Repr

/-- A `user_route_subscriptions` row (`UserRouteSubscription` in
`app/db/models/route.py`); the `created_at` audit column is omitted. -/
structure Subscription where
  userId : Nat
  routeId : Nat
deriving DecidableEq, Repr

/-- A committed database state.  `nextRouteId` models the `monitored_routes`
primary-key sequence. -/
structure DB where
  routes : List Route
  subs : List Subscription
  users : List UserRec
  nextRouteId : Nat
deriving DecidableEq, Repr

/-- `RouteMonitorRequest` from `app/schemas/route.py`. -/
structure RouteMonitorRequest where
  fromLocationId : String
  fromLocationType : String
  toLocationId : String
  toLocationType : String
  departure : Timestamp
  arrival : Option Timestamp
  regiojetRouteId : String
deriving DecidableEq, Repr

/-- The WHERE clause of `get_or_create_monitored_route`'s SELECT, which is
also the column set of the `uq_monitored_route_segment` unique constraint:
(regiojet_route_id, from_location_id, to_location_id). -/
def routeMatchesKey (req : RouteMonitorRequest) (r : Route) : Bool :=
  r.regiojetRouteId == req.regiojetRouteId &&
  r.fromLocationId == req.fromLocationId &&
  r.toLocationId == req.toLocationId

/-- The SELECT of `get_or_create_monitored_route` (`scalar_one_or_none`). -/
def selectRouteByKey (db : DB) (req : RouteMonitorRequest) : Option Route :=
  db.routes.find? (routeMatchesKey req)

/-- Commit of a mutated ORM route row: the row with the same primary key is
replaced. -/
def setRouteRow (db : DB) (r : Route) : DB :=
  { db with routes := db.routes.map fun x => if x.id == r.id then r else x }

/-- The row `_create_monitored_route_internal` builds from the request's
dumped fields plus the column defaults (status MONITORING, fresh primary
key). -/
def mkNewRoute (db : DB) (req : RouteMonitorRequest) : Route :=
  { id := db.nextRouteId
    regiojetRouteId := req.regiojetRouteId
    fromLocationId := req.fromLocationId
    fromLocationType := req.fromLocationType
    toLocationId := req.toLocationId
    toLocationType := req.toLocationType
    departure := req.departure
    arrival := req.arrival
    status := .MONITORING
    lastCheckedAt := none }

/-- `_create_monitored_route_internal` from `app/db/crud/crud_route.py`: adds
the new row and commits.  A concurrent row with the same segment key makes the
commit raise `IntegrityError` on `uq_monitored_route_segment`; the function
has no handler for it. -/
def createMonitoredRouteInternal (db : DB) (req : RouteMonitorRequest) :
    Except PyExn (DB × Route) :=
  if db.routes.any (routeMatchesKey req) then
    .error (.integrityError "uq_monitored_route_segment")
  else
    .ok ({ db with
            routes := db.routes ++ [mkNewRoute db req]
            nextRouteId := db.nextRouteId + 1 },
         mkNewRoute db req)

/-- `get_or_create_monitored_route` from `app/db/crud/crud_route.py`.  The
commit of the INSERT (or of the reactivation UPDATE) may run against a
database that a concurrent writer changed after the initial SELECT; `dbSel` is
the state the SELECT observes and `dbIns` the state the commit runs against.
An uninterfered call has `dbSel = dbIns`.  The code catches no
`IntegrityError`. -/
def getOrCreateMonitoredRoute (dbSel dbIns : DB) (req : RouteMonitorRequest) :
    Except PyExn (DB × Route) :=
  match selectRouteByKey dbSel req with
  | some r =>
      if r.status ≠ .MONITORING then
        let r1 := { r with status := .MONITORING }
        .ok (setRouteRow dbIns r1, r1)
      else .ok (dbIns, r)
  | none => createMonitoredRouteInternal dbIns req

/-- The WHERE clause on a (user_id, route_id) subscription pair. -/
def subMatches (uid rid : Nat) (s : Subscription) : Bool :=
  s.userId == uid && s.routeId == rid

/-- `create_user_subscription`: SELECT, return the existing row if present,
otherwise INSERT; when the commit raises (the concurrent-duplicate race) roll
back, SELECT again, return the row now present, and re-raise only if it is
still absent.  `dbSel`/`dbIns` as in `getOrCreateMonitoredRoute`. -/
def createUserSubscription (dbSel dbIns : DB) (uid rid : Nat) :
    Except PyExn (DB × Subscription) :=
  match dbSel.subs.find? (subMatches uid rid) with
  | some s => .ok (dbIns, s)
  | none =>
      if dbIns.subs.any (subMatches uid rid) then
        match dbIns.subs.find? (subMatches uid rid) with
        | some s => .ok (dbIns, s)
        | none => .error (.integrityError "pk_user_route_subscriptions")
      else
        .ok ({ dbIns with subs := dbIns.subs ++ [⟨uid, rid⟩] }, ⟨uid, rid⟩)

/-- `delete_user_subscription`: the DELETE with its own COMMIT; the returned
flag is `rowcount > 0`. -/
def deleteUserSubscription (db : DB) (uid rid : Nat) : DB × Bool :=
  ({ db with subs := db.subs.filter fun s => !(subMatches uid rid s) },
   db.subs.any (subMatches uid rid))

/-- `count_subscriptions_for_route`. -/
def countSubscriptionsForRoute (db : DB) (rid : Nat) : Nat :=
  (db.subs.filter fun s => s.routeId == rid).length

/-- `delete_monitored_route`: the DELETE with its own COMMIT; the
`ondelete="CASCADE"` foreign key also removes subscriptions of the route. -/
def deleteMonitoredRoute (db : DB) (rid : Nat) : DB × Bool :=
  ({ db with
      routes := db.routes.filter fun r => !(r.id == rid)
      subs := db.subs.filter fun s => !(s.routeId == rid) },
   db.routes.any (·.id == rid))

/-- `get_verified_route_subscribers` (sync, for the worker). -/
def getVerifiedRouteSubscribers (db : DB) (rid : Nat) : List UserRec :=
  db.users.filter fun u =>
    u.isVerified && db.subs.any fun s => s.userId == u.id && s.routeId == rid

/-- `get_monitored_route_by_id` (also the SELECT of the sync helpers). -/
def getMonitoredRouteById (db : DB) (rid : Nat) : Option Route :=
  db.routes.find? (·.id == rid)

/-- `deactivate_route_sync`: MONITORING becomes FOUND; any other state is
returned unchanged; a missing id yields `none`. -/
def deactivateRouteSync (db : DB) (rid : Nat) : DB × Option Route :=
  match getMonitoredRouteById db rid with
  | none => (db, none)
  | some r =>
      if r.status = .MONITORING then
        let r1 := { r with status := .FOUND }
        (setRouteRow db r1, some r1)
      else (db, some r)

/-- `expire_route_sync`: any found row has its status set to EXPIRED and is
committed; a missing id yields `none`. -/
def expireRouteSync (db : DB) (rid : Nat) : DB × Option Route :=
  match getMonitoredRouteById db rid with
  | none => (db, none)
  | some r =>
      let r1 := { r with status := .EXPIRED }
      (setRouteRow db r1, some r1)

/-- `get_user_subscription_for_route`. -/
def getUserSubscriptionForRoute (db : DB) (uid rid : Nat) : Option Subscription :=
  db.subs.find? (subMatches uid rid)

/-- `update_route_status_and_last_checked`. -/
def updateRouteStatusAndLastChecked (db : DB) (r : Route) (st : RouteStatus)
    (t : Int) : DB × Route :=
  let r1 := { r with status := st, lastCheckedAt := some t }
  (setRouteRow db r1, r1)

/-- `schedule_route_checks` from `app/worker/tasks.py`: select every route in
MONITORING state, stamp `last_checked_at = now` on all of them in one commit,
and return the ids to dispatch one `check_single_route` task for each.  No
lock, lease or claim of any kind is taken on the dispatched ids. -/
def scheduleRouteChecks (db : DB) (now : Int) : DB × List Nat :=
  let ids := (db.routes.filter fun r => r.status = .MONITORING).map (·.id)
  ({ db with routes := db.routes.map fun r =>
      if r.status = .MONITORING then { r with lastCheckedAt := some now } else r },
   ids)

/-- Outcome of the first phase of `check_single_route` (the fetch of the row
and the status gate, before the blocking upstream call). -/
inductive CheckStart
  | notFoundDb
  | notMonitoring
  | proceed (snapshot : Route)

/-- Phase one of `check_single_route`: `db.get` of the row, then the two early
returns (`NOT_FOUND_DB` when the row is missing, `NOT_MONITORING` when its
status is not MONITORING).  Only on `proceed` does the task go on to call the
checker. -/
def checkStart (db : DB) (rid : Nat) : CheckStart :=
  match getMonitoredRouteById db rid with
  | none => .notFoundDb
  | some r => if r.status ≠ .MONITORING then .notMonitoring else .proceed r

/-- One queued `send_notification_email.delay(...)` call.  The Czech
subject/body text assembled from cached location names and Prague-local time
formatting is elided: no claim inspects it; the fields kept identify the
recipient and the availability data the message is built from. -/
structure QueuedEmail where
  emailTo : String
  routeId : Nat
  freeSeatsCount : Json
  bookingLink : String

/-- Phase two of `check_single_route`, entered with the row snapshot read in
phase one: run the availability check, and if seats were found queue one
notification per verified subscriber and then deactivate the route.  A
`fastapi.HTTPException` escaping the checker would be reported as
`HTTP_ERROR` and any other exception as `UNEXPECTED_ERROR` (with rollback);
`(true, none)` would crash on `details.get` inside the generic handler. -/
def checkFinish (db : DB) (rid : Nat) (snapshot : Route) (out : UpstreamOutcome) :
    DB × List QueuedEmail × String :=
  match checkRouteAvailabilitySync snapshot out with
  | .error (.httpException _) => (db, [], "HTTP_ERROR")
  | .error _ => (db, [], "UNEXPECTED_ERROR")
  | .ok (false, _) => (db, [], "NOT_FOUND")
  | .ok (true, none) => (db, [], "UNEXPECTED_ERROR")
  | .ok (true, some d) =>
      let emails := (getVerifiedRouteSubscribers db rid).map fun u =>
        { emailTo := u.email
          routeId := rid
          freeSeatsCount := d.freeSeatsCount
          bookingLink := d.bookingLink }
      ((deactivateRouteSync db rid).1, emails, "FOUND")

/-- `check_single_route` run to completion without interference, returning
the new database state, the queued notifications, the number of upstream
availability calls performed, and the task's status string. -/
def checkSingleRoute (db : DB) (rid : Nat) (out : UpstreamOutcome) :
    DB × List QueuedEmail × Nat × String :=
  match checkStart db rid with
  | .notFoundDb => (db, [], 0, "NOT_FOUND_DB")
  | .notMonitoring => (db, [], 0, "NOT_MONITORING")
  | .proceed r =>
      let (db1, emails, st) := checkFinish db rid r out
      (db1, emails, 1, st)

/-- `expire_past_routes` from `app/worker/tasks.py`: select every route with
status different from EXPIRED whose departure is strictly before `now`, then
run `expire_route_sync` on each selected id. -/
def expirePastRoutes (db : DB) (now : Int) : DB :=
  let ids := (db.routes.filter fun r =>
    r.status ≠ .EXPIRED ∧ r.departure.epoch < now).map (·.id)
  ids.foldl (fun d rid => (expireRouteSync d rid).1) db

/-- Worker-system state for the interleaving model: the shared database, the
Celery queue of dispatched `check_single_route` task ids, the checks whose
upstream call is currently in flight (with the row snapshot each one read in
phase one), and the queued notification emails. -/
structure SysState where
  db : DB
  taskQueue : List Nat
  inFlight : List (Nat × Route)
  emails : List QueuedEmail

/-- Atomic events of the worker system: one full `schedule_route_checks` run,
the first phase of a queued `check_single_route` task (up to the start of its
upstream call), and the completion of an in-flight check with a given
upstream outcome. -/
inductive WorkerEvent
  | tick (now : Int)
  | start (rid : Nat)
  | finish (rid : Nat) (out : UpstreamOutcome)

/-- Interleaving semantics of the worker.  `start` consumes one queued task
for the id and, when the status gate passes, leaves the check in flight with
its snapshot; `finish` completes the first in-flight check of the id.  This
matches `app/worker/tasks.py`: no per-route lease is consulted or written at
any point. -/
def SysState.step (s : SysState) : WorkerEvent → SysState
  | .tick now =>
      let (db1, ids) := scheduleRouteChecks s.db now
      { s with db := db1, taskQueue := s.taskQueue ++ ids }
  | .start rid =>
      if s.taskQueue.contains rid then
        let q := s.taskQueue.erase rid
        match checkStart s.db rid with
        | .proceed r => { s with taskQueue := q, inFlight := s.inFlight ++ [(rid, r)] }
        | _ => { s with taskQueue := q }
      else s
  | .finish rid out =>
      match s.inFlight.find? (fun p => p.1 == rid) with
      | none => s
      | some (_, snap) =>
          let (db1, es, _) := checkFinish s.db rid snap out
          { s with db := db1, emails := s.emails ++ es,
                   inFlight := s.inFlight.eraseP (fun p => p.1 == rid) }

/-- Run of a sequence of worker events. -/
def runEvents (s : SysState) (evs : List WorkerEvent) : SysState :=
  evs.foldl SysState.step s

/-- Response body of POST /routes/monitor, with the HTTP status code the
endpoint sets (200 when seats are available now, 201 when monitoring was
created). -/
structure RouteMonitorResponse where
  statusCode : Nat
  available : Bool
  details : Option AvailabilityDetails

/-- The `TempRouteForCheck` object built inside `create_monitoring_request`:
only the request's seven fields matter to the checker; `id` and `status` are
never read by it. -/
def tempRouteForCheck (req : RouteMonitorRequest) : Route :=
  { id := 0
    regiojetRouteId := req.regiojetRouteId
    fromLocationId := req.fromLocationId
    fromLocationType := req.fromLocationType
    toLocationId := req.toLocationId
    toLocationType := req.toLocationType
    departure := req.departure
    arrival := req.arrival
    status := .MONITORING
    lastCheckedAt := none }

/-- `create_monitoring_request` (POST /routes/monitor) from
`app/api/endpoints/routes.py`, for an uninterfered request (the crud-level
race windows are closed: `dbSel = dbIns`).  An `HTTPException` escaping the
initial availability check is re-raised; any other exception becomes a 500.
On availability the request returns 200 and writes nothing; otherwise the
route row is got-or-created, the subscription created, and 201 returned. -/
def createMonitoringRequest (db : DB) (uid : Nat) (req : RouteMonitorRequest)
    (out : UpstreamOutcome) : Except HTTPError (DB × RouteMonitorResponse) :=
  match checkRouteAvailability (tempRouteForCheck req) out with
  | .error (.httpException e) => .error e
  | .error _ => .error ⟨500, "Behem uvodni kontroly dostupnosti doslo k neocekavane chybe."⟩
  | .ok (true, details) => .ok (db, ⟨200, true, details⟩)
  | .ok (false, _) =>
      match getOrCreateMonitoredRoute db db req with
      | .error _ => .error ⟨500, "Nepodarilo se ulozit nebo nacist informace o trase."⟩
      | .ok (db1, r) =>
          match createUserSubscription db1 db1 uid r.id with
          | .error _ => .error ⟨500, "Nepodarilo se prihlasit uzivatele ke sledovani trasy."⟩
          | .ok (db2, _) => .ok (db2, ⟨201, false, none⟩)

/-- `cancel_monitoring_request` (DELETE /routes/monitor): result of a full
run — 404 when no subscription row was deleted, otherwise the route is
additionally deleted when its remaining subscription count is zero. -/
def cancelMonitoringRequest (db : DB) (uid rid : Nat) : Except HTTPError DB :=
  let (db1, deleted) := deleteUserSubscription db uid rid
  if deleted = false then
    .error ⟨404, "Sledovani pro tohoto uzivatele a trasu nebylo nalezeno."⟩
  else if countSubscriptionsForRoute db1 rid = 0 then
    .ok (deleteMonitoredRoute db1 rid).1
  else .ok db1

/-- Durable (committed) database states of one cancel call, in order,
starting with the initial state.  `delete_user_subscription` and
`delete_monitored_route` each issue their own COMMIT and the `get_db`
dependency opens no enclosing transaction commit, so each step is a separate
durable point: a failure between two of them leaves the earlier commits
applied. -/
def cancelCommits (db : DB) (uid rid : Nat) : List DB :=
  let (db1, deleted) := deleteUserSubscription db uid rid
  if deleted = false then [db, db1]
  else if countSubscriptionsForRoute db1 rid = 0 then
    [db, db1, (deleteMonitoredRoute db1 rid).1]
  else [db, db1]

/-- Response body of POST /routes/monitored-routes/.../restart. -/
structure RouteRestartResponse where
  restarted : Bool
  details : Option AvailabilityDetails

/-- `restart_monitoring_request` from `app/api/endpoints/routes.py`: 404 when
the route id is unknown, 403 when the requesting user holds no subscription
on it, 409 when its status is not FOUND; then a live availability check — if
seats are still available nothing is written and `restarted = false` is
returned, otherwise the route is set back to MONITORING with
`last_checked_at = now` and `restarted = true` is returned. -/
def restartMonitoringRequest (db : DB) (uid rid : Nat) (out : UpstreamOutcome)
    (now : Int) : Except HTTPError (DB × RouteRestartResponse) :=
  match getMonitoredRouteById db rid with
  | none => .error ⟨404, "Sledovana trasa nebyla nalezena."⟩
  | some r =>
      match getUserSubscriptionForRoute db uid rid with
      | none => .error ⟨403, "Nemate opravneni restartovat sledovani teto trasy."⟩
      | some _ =>
          if r.status ≠ .FOUND then
            .error ⟨409, "Sledovani teto trasy nelze restartovat: aktualni stav neni FOUND."⟩
          else
            match checkRouteAvailability r out with
            | .error (.httpException e) => .error e
            | .error _ => .error ⟨500, "Behem kontroly dostupnosti pri restartu doslo k neocekavane chybe."⟩
            | .ok (true, d) => .ok (db, ⟨false, d⟩)
            | .ok (false, _) =>
                .ok ((updateRouteStatusAndLastChecked db r .MONITORING now).1, ⟨true, none⟩)

/-- A validated `Location` model from `app/schemas/location.py`. -/
structure Location where
  id : String
  name : String
  type : String
  normalizedName : String
deriving DecidableEq, Repr

/-- Pydantic validation of one entry against the `Location` schema: four
required string fields, `type` restricted to CITY or STATION. -/
def validateLocation : Json → Option Location
  | .jobj fields =>
      match fields.lookup "id", fields.lookup "name", fields.lookup "type",
            fields.lookup "normalized_name" with
      | some (.jstr i), some (.jstr n), some (.jstr t), some (.jstr nn) =>
          if t = "CITY" ∨ t = "STATION" then some ⟨i, n, t, nn⟩ else none
      | _, _, _, _ => none
  | _ => none

/-- `_get_locations_from_cache` (and its sync twin
`_get_locations_from_cache_sync`): the stored value must decode to a JSON
list and every entry must validate, else the cache counts as invalid.  The
argument `none` covers an absent or TTL-expired key; an undecodable stored
string behaves identically (both return `None` in the code). -/
def getLocationsFromCache (cache : Option Json) : Option (List Location) :=
  match cache with
  | some (.jarr items) => items.mapM validateLocation
  | _ => none

/-- Python truthiness of a decoded JSON value (used by the `or` fallback on
station names). -/
def pyTruthy : Json → Bool
  | .jnull => false
  | .jbool b => b
  | .jnum n => !(n == 0)
  | .jstr s => !(s == "")
  | .jarr xs => !xs.isEmpty
  | .jobj fs => !fs.isEmpty

/-- Python `x is None` on a value obtained from `d.get(key)`. -/
def pyIsNull : Json → Bool
  | .jnull => true
  | _ => false

/-- `normalize_string`: lower-case and keep the ASCII range.  The NFKD
decomposition that also folds accented letters onto their base letters is
elided (no claim inspects normalized names). -/
def normalizeString (s : String) : String :=
  String.mk ((s.data.map Char.toLower).filter fun c => c.toNat < 128)

/-- `normalize_string` applied to a decoded JSON value: only strings have
`.lower()`; `None` yields the empty string; anything else raises
`AttributeError`. -/
def normalizeJson : Json → Except PyExn String
  | .jstr s => .ok (normalizeString s)
  | .jnull => .ok ""
  | _ => .error (.typeError "AttributeError: lower")

/-- Python `str()` of a decoded JSON value as applied to location ids.  The
recursive repr of lists and dicts is elided (ids are scalars in practice and
no claim inspects the rendering). -/
def jsonToPyStr : Json → String
  | .jnull => "None"
  | .jbool true => "True"
  | .jbool false => "False"
  | .jnum n => toString n
  | .jstr s => s
  | .jarr _ => "<list>"
  | .jobj _ => "<dict>"

/-- One location dict appended by `_parse_locations_response`: the id passed
through `str()`, the name kept as-is, the fixed type tag, and the normalized
name (whose computation raises on a non-string name). -/
def mkLocEntry (idv nameV : Json) (tp : String) : Except PyExn Json := do
  let nn ← normalizeJson nameV
  return .jobj [("id", .jstr (jsonToPyStr idv)), ("name", nameV),
                ("type", .jstr tp), ("normalized_name", .jstr nn)]

/-- Station loop body of `_parse_locations_response`: non-dict entries and
entries with a missing id or name are skipped; the display name is
`fullname` with an `or` fallback to `name`. -/
def parseStation (station : Json) : Except PyExn (List Json) :=
  if station.isObj = false then .ok []
  else
    let sid := (station.getKey "id").getD .jnull
    let fn := (station.getKey "fullname").getD .jnull
    let sname := if pyTruthy fn then fn else (station.getKey "name").getD .jnull
    if pyIsNull sid || pyIsNull sname then .ok []
    else do
      let e ← mkLocEntry sid sname "STATION"
      return [e]

/-- City loop body of `_parse_locations_response`: a skipped city also skips
its stations; a non-list `stations` value keeps the city but skips its
stations. -/
def parseCity (city : Json) : Except PyExn (List Json) :=
  if city.isObj = false then .ok []
  else
    let cid := (city.getKey "id").getD .jnull
    let cname := (city.getKey "name").getD .jnull
    if pyIsNull cid || pyIsNull cname then .ok []
    else do
      let e ← mkLocEntry cid cname "CITY"
      match (city.getKey "stations").getD (.jarr []) with
      | .jarr stations => do
          let ls ← stations.mapM parseStation
          return e :: ls.flatten
      | _ => return [e]

/-- Country loop body of `_parse_locations_response`. -/
def parseCountry (country : Json) : Except PyExn (List Json) :=
  if country.isObj = false then .ok []
  else
    match (country.getKey "cities").getD (.jarr []) with
    | .jarr cities => do
        let ls ← cities.mapM parseCity
        return ls.flatten
    | _ => .ok []

/-- `_parse_locations_response` from `app/services/regiojet_data_parser.py`:
raises `ParsingError` unless the top level is a list; invalid entries inside
it are skipped with a warning; a non-string name raises `AttributeError`
which propagates. -/
def parseLocationsResponse (body : Json) : Except PyExn (List Json) :=
  match body with
  | .jarr countries => do
      let ls ← countries.mapM parseCountry
      return ls.flatten
  | _ => .error (.parsingError "Received unexpected data format from Regiojet API (locations).")

/-- `_set_locations_to_cache`: the validated models dumped back to a JSON
list, stored under the location key with the configured TTL.  (A Redis error
during the write is logged and swallowed; the successful write is
modelled.) -/
def serializeLocations (locs : List Location) : Json :=
  .jarr (locs.map fun l => .jobj
    [("id", .jstr l.id), ("name", .jstr l.name),
     ("type", .jstr l.type), ("normalized_name", .jstr l.normalizedName)])

/-- `get_locations` from `app/services/regiojet_data_service.py`: serve the
cache when it holds a fully valid value; otherwise fetch the directory,
parse, validate, cache and return it — propagating an `HTTPException` on any
fetch, parse or validation failure.  The result pairs the served list with
the cache content after the call. -/
def getLocations (cache : Option Json) (out : UpstreamOutcome) :
    Except HTTPError (List Location × Option Json) :=
  match getLocationsFromCache cache with
  | some locs => .ok (locs, cache)
  | none =>
      match fetchRegiojetApiSync "/consts/locations" out with
      | .error (.httpException e) => .error e
      | .error _ => .error ⟨500, "Failed to fetch location data."⟩
      | .ok body =>
          match parseLocationsResponse body with
          | .error (.parsingError m) => .error ⟨502, m⟩
          | .error _ => .error ⟨500, "Failed to parse location data."⟩
          | .ok dicts =>
              match dicts.mapM validateLocation with
              | none => .error ⟨500, "Failed to validate location data from Regiojet API."⟩
              | some locs => .ok (locs, some (serializeLocations locs))

/-! ## Claim C7 -/

/-- C7: for every availability check whose upstream response is a non-object
value, or an object missing the free-seat-count field, or a 404 response, or
an object with zero free seats, `check_route_availability_sync` and its async
twin `check_route_availability` return `(False, None)` and raise no
exception. -/
theorem checker_fail_closed (route : Route) (out : UpstreamOutcome)
    (h : (∃ b, out = .ok b ∧ b.isObj = false)
       ∨ (∃ fields, out = .ok (.jobj fields) ∧
            Json.getKey (.jobj fields) "freeSeatsCount" = none)
       ∨ out = .httpError 404
       ∨ (∃ fields, out = .ok (.jobj fields) ∧
            Json.getKey (.jobj fields) "freeSeatsCount" = some (.jnum 0))) :
    checkRouteAvailabilitySync route out = .ok (false, none) ∧
    checkRouteAvailability route out = .ok (false, none) := by
  have hbody : ∀ w b, (b.isObj = false ∨
      Json.getKey b "freeSeatsCount" = none ∨
      Json.getKey b "freeSeatsCount" = some (.jnum 0)) →
      checkerBody w route b = .ok (false, none) := by
    intro w b hb
    rcases hb with hb | hb | hb
    · simp [checkerBody, hb]
    · rw [checkerBody]
      split
      · rfl
      · rw [hb]
        rfl
    · rw [checkerBody]
      split
      · rfl
      · rw [hb]
        rfl
  constructor
  · rw [checkRouteAvailabilitySync]
    split
    · rfl
    · rcases h with ⟨b, rfl, hb⟩ | ⟨fs, rfl, hf⟩ | rfl | ⟨fs, rfl, hf⟩
      · simp [fetchRegiojetApiSync, hbody true b (Or.inl hb)]
      · simp [fetchRegiojetApiSync, hbody true _ (Or.inr (Or.inl hf))]
      · simp [fetchRegiojetApiSync, checkerExceptChain]
      · simp [fetchRegiojetApiSync, hbody true _ (Or.inr (Or.inr hf))]
  · rw [checkRouteAvailability]
    split
    · rfl
    · rcases h with ⟨b, rfl, hb⟩ | ⟨fs, rfl, hf⟩ | rfl | ⟨fs, rfl, hf⟩
      · simp [fetchRegiojetApiSync, hbody false b (Or.inl hb)]
      · simp [fetchRegiojetApiSync, hbody false _ (Or.inr (Or.inl hf))]
      · simp [fetchRegiojetApiSync, checkerExceptChain]
      · simp [fetchRegiojetApiSync, hbody false _ (Or.inr (Or.inr hf))]

/-- Witness for C7 at a concrete input: the 404 case. -/
theorem checker_fail_closed_witness :
    checkRouteAvailabilitySync routeR (.httpError 404) = .ok (false, none) ∧
    checkRouteAvailability routeR (.httpError 404) = .ok (false, none) :=
  checker_fail_closed routeR (.httpError 404) (Or.inr (Or.inr (Or.inl rfl)))

/-! ## Claim C1 -/

/-- The empty initial database. -/
def emptyDB : DB := ⟨[], [], [], 1⟩

/-- A concrete monitor request for the segment (R1, A, B). -/
def reqR : RouteMonitorRequest :=
  { fromLocationId := "A"
    fromLocationType := "CITY"
    toLocationId := "B"
    toLocationType := "CITY"
    departure := ⟨1700000000, "2025-08-15"⟩
    arrival := none
    regiojetRouteId := "R1" }

/-- C1 (exhibits the divergence): on an upstream timeout the fetch helper
raises `HTTPException 504`, but the checker's `except httpx.HTTPStatusError`
re-raise branch never matches a `fastapi.HTTPException`, so the trailing
`except Exception` swallows it into `(False, None)` — byte-identical to the
"we know there are no seats" outcome; the same happens for a connection
error and for any non-404 4xx/5xx.  Consequently the initial monitor request
does not surface the failure: it proceeds to create the monitoring record
and answers 201. -/
theorem monitor_check_failure_swallowed :
    fetchRegiojetApiSync "/routes/R1/simple" .timeout =
      .error (.httpException ⟨504, "Regiojet API timed out (/routes/R1/simple)."⟩) ∧
    checkRouteAvailabilitySync routeR .timeout = .ok (false, none) ∧
    checkRouteAvailabilitySync routeR .connectError = .ok (false, none) ∧
    checkRouteAvailabilitySync routeR (.httpError 500) = .ok (false, none) ∧
    (∃ db1, createMonitoringRequest emptyDB 7 reqR .timeout = .ok (db1, ⟨201, false, none⟩) ∧
      db1.routes.length = 1 ∧ db1.subs = [⟨7, 1⟩]) := by
  refine ⟨rfl, rfl, rfl, rfl, ⟨_, rfl, rfl, rfl⟩⟩

/-! ## Generic lemmas about keyed row updates -/

/-- Helper: updating the row found by `find?` with a row of the same primary
key that still satisfies the predicate makes `find?` return the update,
provided primary keys are unique. -/
theorem find?_update_of_nodup (l : List Route) (p : Route → Bool) (r r1 : Route)
    (hfind : l.find? p = some r) (hid : r1.id = r.id) (hp1 : p r1 = true)
    (hnd : (l.map Route.id).Nodup) :
    (l.map fun x => if x.id == r1.id then r1 else x).find? p = some r1 := by
  induction l with
  | nil => simp at hfind
  | cons a as ih =>
    by_cases hpa : p a = true
    · rw [List.find?_cons_of_pos _ hpa] at hfind
      injection hfind with h
      subst h
      have hbeq : (a.id == r1.id) = true := by simp [hid]
      simp only [List.map_cons, hbeq, if_true]
      exact List.find?_cons_of_pos _ hp1
    · rw [List.find?_cons_of_neg _ (by simpa using hpa)] at hfind
      have hmem : r ∈ as := List.mem_of_find?_eq_some hfind
      have hnd0 : (∀ x ∈ as, ¬ x.id = a.id) ∧ (as.map Route.id).Nodup := by
        simpa using hnd
      have hane : a.id ≠ r1.id := by
        rw [hid]
        exact fun h => hnd0.1 r hmem h.symm
      have hbeq : (a.id == r1.id) = false := beq_eq_false_iff_ne.mpr hane
      simp only [List.map_cons, hbeq, if_false]
      rw [List.find?_cons_of_neg _ (by simpa using hpa)]
      exact ih hfind hnd0.2

/-- Helper: the same update leaves the number of rows matched by the
predicate unchanged. -/
theorem length_filter_update_of_nodup (l : List Route) (p : Route → Bool) (r r1 : Route)
    (hfind : l.find? p = some r) (hid : r1.id = r.id) (hp1 : p r1 = true)
    (hnd : (l.map Route.id).Nodup) :
    ((l.map fun x => if x.id == r1.id then r1 else x).filter p).length =
      (l.filter p).length := by
  rw [List.filter_map, List.length_map]
  congr 1
  apply List.filter_congr
  intro x hx
  by_cases hxid : (x.id == r1.id) = true
  · have hxr : x = r := by
      apply List.inj_on_of_nodup_map hnd hx (List.mem_of_find?_eq_some hfind)
      rw [hid] at hxid
      simpa using hxid
    simp only [Function.comp, hxid, if_true, hp1]
    rw [hxr]
    exact (List.find?_some hfind).symm
  · simp only [Function.comp, hxid]
    simp at hxid
    simp [hxid]

/-! ## Claim C2 -/

/-- Database state after a concurrent request inserted the (R1, A, B) row. -/
def dbRaced : DB := ⟨[routeR], [], [], 2⟩

/-- C2 counterexample: a call of `get_or_create_monitored_route` whose SELECT
ran before a concurrent duplicate insert committed (so the SELECT saw no row)
hits the `uq_monitored_route_segment` uniqueness conflict on its own INSERT
and propagates `IntegrityError` — it does not re-read and return the existing
row.  (The catch-and-reselect handler exists only in
`create_user_subscription`.) -/
theorem getOrCreate_conflict_raises :
    getOrCreateMonitoredRoute emptyDB dbRaced reqR =
      .error (.integrityError "uq_monitored_route_segment") := by
  rfl

/-- C2 amended: only in the absence of a concurrent writer between its SELECT
and its INSERT does `get_or_create_monitored_route` behave as get-or-create —
two sequential calls with the same segment key return the same row (same id,
status MONITORING) and leave exactly one row with that key; a concurrent
duplicate insert instead makes the call raise `IntegrityError`
(`getOrCreate_conflict_raises`). -/
theorem getOrCreate_sequential_idempotent (db : DB) (req : RouteMonitorRequest)
    (hnd : (db.routes.map Route.id).Nodup)
    (huniq : (db.routes.filter (routeMatchesKey req)).length ≤ 1) :
    ∃ db1 r1,
      getOrCreateMonitoredRoute db db req = .ok (db1, r1) ∧
      getOrCreateMonitoredRoute db1 db1 req = .ok (db1, r1) ∧
      r1.status = .MONITORING ∧
      (db1.routes.filter (routeMatchesKey req)).length = 1 := by
  rcases hsel : selectRouteByKey db req with _ | r
  · -- no row yet: the INSERT path
    have hnone : ∀ x ∈ db.routes, ¬ routeMatchesKey req x :=
      List.find?_eq_none.mp hsel
    have hany : db.routes.any (routeMatchesKey req) = false := by
      rw [Bool.eq_false_iff]
      intro hcontra
      obtain ⟨x, hx, hpx⟩ := List.any_eq_true.mp hcontra
      exact hnone x hx hpx
    have hfilter : db.routes.filter (routeMatchesKey req) = [] := by
      rw [List.filter_eq_nil_iff]
      exact hnone
    refine ⟨{ db with
               routes := db.routes ++ [mkNewRoute db req]
               nextRouteId := db.nextRouteId + 1 },
            mkNewRoute db req, ?_, ?_, ?_, ?_⟩
    · simp [getOrCreateMonitoredRoute, hsel, createMonitoredRouteInternal, hany]
    · rw [getOrCreateMonitoredRoute]
      have hsel1 : selectRouteByKey
          { db with routes := db.routes ++ [mkNewRoute db req], nextRouteId := db.nextRouteId + 1 } req =
          some (mkNewRoute db req) := by
        rw [selectRouteByKey]
        rw [List.find?_append]
        rw [selectRouteByKey] at hsel
        rw [hsel]
        simp [mkNewRoute, routeMatchesKey]
      rw [hsel1]
      simp [mkNewRoute]
    · rfl
    · simp only [List.filter_append, hfilter, List.nil_append]
      simp [mkNewRoute, routeMatchesKey]
  · -- a row exists
    have hp : routeMatchesKey req r = true := List.find?_some hsel
    have hmem : r ∈ db.routes := List.mem_of_find?_eq_some hsel
    have hlen1 : (db.routes.filter (routeMatchesKey req)).length = 1 := by
      have hpos : 0 < (db.routes.filter (routeMatchesKey req)).length := by
        apply List.length_pos.mpr
        intro hnil
        have := List.mem_filter.mpr ⟨hmem, hp⟩
        rw [hnil] at this
        simp at this
      omega
    by_cases hst : r.status = RouteStatus.MONITORING
    · refine ⟨db, r, ?_, ?_, hst, hlen1⟩
      · simp [getOrCreateMonitoredRoute, hsel, hst]
      · simp [getOrCreateMonitoredRoute, hsel, hst]
    · -- reactivation path
      refine ⟨setRouteRow db { r with status := .MONITORING },
              { r with status := .MONITORING }, ?_, ?_, rfl, ?_⟩
      · simp [getOrCreateMonitoredRoute, hsel, hst]
      · have hsel1 : selectRouteByKey (setRouteRow db { r with status := .MONITORING }) req =
            some { r with status := .MONITORING } := by
          rw [selectRouteByKey, setRouteRow]
          exact find?_update_of_nodup db.routes (routeMatchesKey req) r
            { r with status := .MONITORING } hsel rfl
            (by simpa [routeMatchesKey] using hp) hnd
        rw [getOrCreateMonitoredRoute, hsel1]
        simp
      · rw [setRouteRow]
        rw [length_filter_update_of_nodup db.routes (routeMatchesKey req) r
          { r with status := .MONITORING } hsel rfl
          (by simpa [routeMatchesKey] using hp) hnd]
        exact hlen1

/-- Witness for C2's amended theorem: two sequential calls on the empty
database. -/
theorem getOrCreate_sequential_idempotent_witness :
    ∃ db1 r1,
      getOrCreateMonitoredRoute emptyDB emptyDB reqR = .ok (db1, r1) ∧
      getOrCreateMonitoredRoute db1 db1 reqR = .ok (db1, r1) ∧
      r1.status = .MONITORING ∧
      (db1.routes.filter (routeMatchesKey reqR)).length = 1 :=
  getOrCreate_sequential_idempotent emptyDB reqR (by simp [emptyDB]) (by simp [emptyDB])

/-! ## Claim C3 -/

/-- A verified user subscribed to route 1. -/
def userU : UserRec := ⟨7, "alice@example.com", true⟩

/-- Initial state for the cancel scenario: route 1 with its sole
subscription. -/
def dbC3 : DB := ⟨[routeR], [⟨7, 1⟩], [userU], 2⟩

/-- The middle durable state of the cancel call: subscription committed away,
route still present. -/
def dbC3mid : DB := ⟨[routeR], [], [userU], 2⟩

/-- The final durable state of the cancel call: route deleted as well. -/
def dbC3fin : DB := ⟨[], [], [userU], 2⟩

/-- C3 counterexample: cancelling the sole subscription of route 1 passes
through three separately committed states, and the middle one — subscription
gone, zero-subscriber route still present — differs from both the initial
and the final state.  A failure between the two commits therefore leaves a
partially applied operation durable, contradicting the claimed
all-or-nothing atomicity of the three-step sequence. -/
theorem cancel_partial_state_reachable :
    cancelCommits dbC3 7 1 = [dbC3, dbC3mid, dbC3fin] ∧
    dbC3mid ≠ dbC3 ∧ dbC3mid ≠ dbC3fin ∧
    getMonitoredRouteById dbC3mid 1 = some routeR ∧
    countSubscriptionsForRoute dbC3mid 1 = 0 ∧
    cancelMonitoringRequest dbC3 7 1 = .ok dbC3fin := by
  refine ⟨rfl, by decide, by decide, rfl, rfl, rfl⟩

/-- C3 amended: the delete-subscription, count, and delete-route steps run as
separately committed units of work (the crud functions each commit and
`get_db` opens no enclosing transaction).  Whenever the removed subscription
was the route's only one, the run commits exactly the three states
[initial, middle, final]; the middle durable state already lacks the
subscription but still holds the route with zero subscribers and is distinct
from both endpoints, so only each individual step — not the sequence — is
atomic. -/
theorem cancel_commits_intermediate (db : DB) (uid rid : Nat) (r : Route)
    (hroute : getMonitoredRouteById db rid = some r)
    (hsole : db.subs.filter (fun s => s.routeId == rid) = [⟨uid, rid⟩]) :
    ∃ mid fin, cancelCommits db uid rid = [db, mid, fin] ∧
      getMonitoredRouteById mid rid = some r ∧
      countSubscriptionsForRoute mid rid = 0 ∧
      mid ≠ db ∧ mid ≠ fin ∧
      getMonitoredRouteById fin rid = none ∧
      cancelMonitoringRequest db uid rid = .ok fin := by
  have hmemsub : (⟨uid, rid⟩ : Subscription) ∈ db.subs := by
    apply List.mem_of_mem_filter (p := fun s => s.routeId == rid)
    rw [hsole]
    exact List.mem_singleton_self _
  have hdel : db.subs.any (subMatches uid rid) = true := by
    apply List.any_eq_true.mpr
    exact ⟨⟨uid, rid⟩, hmemsub, by simp [subMatches]⟩
  have hcount0 : countSubscriptionsForRoute
      { db with subs := db.subs.filter fun s => !(subMatches uid rid s) } rid = 0 := by
    rw [countSubscriptionsForRoute]
    simp only [List.filter_filter]
    rw [List.length_eq_zero, List.filter_eq_nil_iff]
    intro s hs hcontra
    simp only [Bool.and_eq_true, Bool.not_eq_true'] at hcontra
    have hsmem : s ∈ db.subs.filter (fun s => s.routeId == rid) :=
      List.mem_filter.mpr ⟨hs, hcontra.1⟩
    rw [hsole] at hsmem
    have hseq : s = ⟨uid, rid⟩ := by simpa using hsmem
    rw [hseq] at hcontra
    simp [subMatches] at hcontra
  refine ⟨{ db with subs := db.subs.filter fun s => !(subMatches uid rid s) },
          { db with
             routes := db.routes.filter fun x => !(x.id == rid)
             subs := (db.subs.filter fun s => !(subMatches uid rid s)).filter
               fun s => !(s.routeId == rid) },
          ?_, ?_, hcount0, ?_, ?_, ?_, ?_⟩
  · simp only [cancelCommits, deleteUserSubscription]
    rw [hdel]
    simp only [Bool.true_eq_false, if_false]
    rw [if_pos hcount0]
    rfl
  · exact hroute
  · intro h
    have hm : (⟨uid, rid⟩ : Subscription) ∈
        ({ db with subs := db.subs.filter fun s => !(subMatches uid rid s) } : DB).subs := by
      rw [h]
      exact hmemsub
    have := (List.mem_filter.mp hm).2
    simp [subMatches] at this
  · intro h
    have hmid : getMonitoredRouteById
        { db with subs := db.subs.filter fun s => !(subMatches uid rid s) } rid = some r :=
      hroute
    rw [h] at hmid
    rw [getMonitoredRouteById] at hmid
    have hpr : (r.id == rid) = true :=
      List.find?_some (p := fun x : Route => x.id == rid) hmid
    have hrmem := List.mem_of_find?_eq_some hmid
    have hneg := (List.mem_filter.mp hrmem).2
    rw [Bool.not_eq_true'] at hneg
    rw [hneg] at hpr
    exact Bool.false_ne_true hpr
  · rw [getMonitoredRouteById]
    rw [List.find?_eq_none]
    intro x hx
    have := (List.mem_filter.mp hx).2
    rw [Bool.not_eq_true'] at this
    simp [this]
  · simp only [cancelMonitoringRequest, deleteUserSubscription]
    rw [hdel]
    simp only [Bool.true_eq_false, if_false]
    rw [if_pos hcount0]
    rfl

/-- Witness for C3's amended theorem at the concrete scenario. -/
theorem cancel_commits_intermediate_witness :
    ∃ mid fin, cancelCommits dbC3 7 1 = [dbC3, mid, fin] ∧
      getMonitoredRouteById mid 1 = some routeR ∧
      countSubscriptionsForRoute mid 1 = 0 ∧
      mid ≠ dbC3 ∧ mid ≠ fin ∧
      getMonitoredRouteById fin 1 = none ∧
      cancelMonitoringRequest dbC3 7 1 = .ok fin :=
  cancel_commits_intermediate dbC3 7 1 routeR rfl rfl

/-! ## Claim C4 -/

/-- The (R1, A, B) row after it expired. -/
def routeRExpired : Route := { routeR with status := .EXPIRED }

/-- Database holding only the expired (R1, A, B) row. -/
def dbC4 : DB := ⟨[routeRExpired], [], [], 2⟩

/-- C4 counterexample: `get_or_create_monitored_route` called on the segment
key of an EXPIRED row reactivates it to MONITORING ("if a row exists and is
not MONITORING, set it to MONITORING"), so the registry operation set of the
claim does move a route out of EXPIRED. -/
theorem expired_reactivated_by_getOrCreate :
    getOrCreateMonitoredRoute dbC4 dbC4 reqR = .ok (⟨[routeR], [], [], 2⟩, routeR) ∧
    routeR.status = .MONITORING := by
  exact ⟨rfl, rfl⟩

/-- C4 amended: EXPIRED is terminal with respect to `mark_found`
(`deactivate_route_sync` returns the row unchanged), `mark_expired`
(`expire_route_sync` returns the row still EXPIRED) and `restart` (rejected
with 403 or 409, never reaching the status update) — but not with respect to
`get_or_create`, which reactivates an EXPIRED row to MONITORING
(`expired_reactivated_by_getOrCreate`). -/
theorem expired_terminal_for_marks_and_restart (db : DB) (rid uid : Nat) (r : Route)
    (out : UpstreamOutcome) (now : Int)
    (hr : getMonitoredRouteById db rid = some r) (hexp : r.status = .EXPIRED) :
    deactivateRouteSync db rid = (db, some r) ∧
    (expireRouteSync db rid).2 = some r ∧
    (∃ e, restartMonitoringRequest db uid rid out now = .error e ∧
       (e.statusCode = 403 ∨ e.statusCode = 409)) := by
  refine ⟨?_, ?_, ?_⟩
  · simp [deactivateRouteSync, hr, hexp]
  · rw [expireRouteSync, hr]
    show some { r with status := .EXPIRED } = some r
    rw [← hexp]
  · rw [restartMonitoringRequest, hr]
    rcases hsub : getUserSubscriptionForRoute db uid rid with _ | s
    · exact ⟨_, rfl, Or.inl rfl⟩
    · refine ⟨⟨409, "Sledovani teto trasy nelze restartovat: aktualni stav neni FOUND."⟩,
        ?_, Or.inr rfl⟩
      simp [hexp]

/-- Witness for C4's amended theorem on the concrete expired row. -/
theorem expired_terminal_for_marks_and_restart_witness :
    deactivateRouteSync dbC4 1 = (dbC4, some routeRExpired) ∧
    (expireRouteSync dbC4 1).2 = some routeRExpired ∧
    (∃ e, restartMonitoringRequest dbC4 9 1 .timeout 0 = .error e ∧
       (e.statusCode = 403 ∨ e.statusCode = 409)) :=
  expired_terminal_for_marks_and_restart dbC4 1 9 routeRExpired .timeout 0 rfl rfl

/-! ## Claim C9 -/

/-- Helper: `expire_route_sync` never changes the id column of any row. -/
theorem expireRouteSync_map_id (db : DB) (i : Nat) :
    ((expireRouteSync db i).1.routes).map Route.id = db.routes.map Route.id := by
  rw [expireRouteSync]
  rcases hf : getMonitoredRouteById db i with _ | r
  · rfl
  · have hrid : (r.id == i) = true :=
      List.find?_some (p := fun x : Route => x.id == i) hf
    show ((setRouteRow db { r with status := .EXPIRED }).routes).map Route.id =
      db.routes.map Route.id
    rw [setRouteRow]
    show (db.routes.map _).map Route.id = db.routes.map Route.id
    rw [List.map_map]
    apply List.map_congr_left
    intro x _
    by_cases hx : (x.id == ({ r with status := RouteStatus.EXPIRED } : Route).id) = true
    · have hxi : x.id = r.id := by simpa using hx
      simp [Function.comp, hx, hxi]
    · have hxf : (x.id == ({ r with status := RouteStatus.EXPIRED } : Route).id) = false := by
        simpa using hx
      simp [Function.comp, hxf]

/-- Helper: `find?` by id commutes with mapping an id-preserving function
over the rows. -/
theorem find?_id_map (l : List Route) (rid : Nat) (f : Route → Route)
    (hf : ∀ x, (f x).id = x.id) :
    (l.map f).find? (fun x => x.id == rid) = (l.find? (fun x => x.id == rid)).map f := by
  induction l with
  | nil => rfl
  | cons a as ih =>
    by_cases ha : (a.id == rid) = true
    · have ha2 : ((f a).id == rid) = true := by rw [hf]; exact ha
      rw [List.map_cons]
      rw [List.find?_cons_of_pos (p := fun x : Route => x.id == rid) _ ha2]
      rw [List.find?_cons_of_pos (p := fun x : Route => x.id == rid) _ ha]
      rfl
    · have ha2 : ¬ ((f a).id == rid) = true := by rw [hf]; exact ha
      rw [List.map_cons]
      rw [List.find?_cons_of_neg (p := fun x : Route => x.id == rid) _ ha2]
      rw [List.find?_cons_of_neg (p := fun x : Route => x.id == rid) _ ha]
      exact ih

/-- Helper: with unique ids, `find?` by the id of a member returns that
member. -/
theorem find?_id_of_mem (l : List Route) (hnd : (l.map Route.id).Nodup)
    (r : Route) (hr : r ∈ l) :
    l.find? (fun x => x.id == r.id) = some r := by
  induction l with
  | nil => simp at hr
  | cons a as ih =>
    have hnd0 : (∀ x ∈ as, ¬ x.id = a.id) ∧ (as.map Route.id).Nodup := by
      simpa using hnd
    rcases List.mem_cons.mp hr with rfl | hras
    · exact List.find?_cons_of_pos _ (by simp)
    · have hne : (a.id == r.id) = false := by
        apply beq_eq_false_iff_ne.mpr
        exact fun h => hnd0.1 r hras h.symm
      rw [List.find?_cons_of_neg _ (by simp [hne])]
      exact ih hnd0.2 hras

/-- Helper: folding `expire_route_sync` over a list of ids marks exactly the
rows whose id occurs in the list, provided row ids are unique. -/
theorem foldl_expire_routes (ids : List Nat) (db : DB)
    (hnd : (db.routes.map Route.id).Nodup) :
    (ids.foldl (fun d rid => (expireRouteSync d rid).1) db).routes =
      db.routes.map fun r =>
        if ids.contains r.id then { r with status := .EXPIRED } else r := by
  induction ids generalizing db with
  | nil =>
    simp
  | cons i rest ih =>
    rw [List.foldl_cons]
    rw [ih (expireRouteSync db i).1 (by rw [expireRouteSync_map_id]; exact hnd)]
    rcases hf : getMonitoredRouteById db i with _ | r
    · have hnone : ∀ x ∈ db.routes, ¬ ((fun x : Route => x.id == i) x = true) :=
        List.find?_eq_none.mp hf
      have hexp0 : (expireRouteSync db i).1 = db := by
        rw [expireRouteSync, hf]
      rw [hexp0]
      apply List.map_congr_left
      intro x hx
      have hxi : (x.id == i) = false := by
        have := hnone x hx
        rwa [Bool.not_eq_true] at this
      rw [List.contains_cons, hxi, Bool.false_or]
    · have hrbeq : (r.id == i) = true :=
        List.find?_some (p := fun x : Route => x.id == i) hf
      have hrid : r.id = i := by simpa using hrbeq
      have hmem : r ∈ db.routes := List.mem_of_find?_eq_some hf
      have hexp1 : (expireRouteSync db i).1 = setRouteRow db { r with status := .EXPIRED } := by
        rw [expireRouteSync, hf]
      rw [hexp1, setRouteRow]
      show (db.routes.map _).map _ = _
      rw [List.map_map]
      apply List.map_congr_left
      intro x hx
      by_cases hxi : (x.id == i) = true
      · have hxr : x = r := by
          apply List.inj_on_of_nodup_map hnd hx hmem
          rw [hrid]
          simpa using hxi
        subst hxr
        have h1 : (x.id == ({ x with status := RouteStatus.EXPIRED } : Route).id) = true := by
          simp
        have h2 : (i :: rest).contains x.id = true := by
          rw [List.contains_cons, hxi, Bool.true_or]
        simp only [Function.comp, h1, if_true, h2]
        split <;> rfl
      · have h1 : (x.id == ({ r with status := RouteStatus.EXPIRED } : Route).id) = false := by
          show (x.id == r.id) = false
          rw [hrid]
          simpa using hxi
        have hxif : (x.id == i) = false := by simpa using hxi
        have h2 : (i :: rest).contains x.id = rest.contains x.id := by
          rw [List.contains_cons, hxif, Bool.false_or]
        simp only [Function.comp, h1, Bool.false_eq_true, if_false, h2]

/-- Helper: with unique row ids, a row's id occurs in the sweep's selection
list exactly when the row satisfies the selection predicate. -/
theorem sweep_contains_iff (db : DB) (now : Int)
    (hnd : (db.routes.map Route.id).Nodup) (r : Route) (hr : r ∈ db.routes) :
    ((db.routes.filter fun x =>
        x.status ≠ RouteStatus.EXPIRED ∧ x.departure.epoch < now).map Route.id).contains r.id =
      decide (r.status ≠ RouteStatus.EXPIRED ∧ r.departure.epoch < now) := by
  by_cases hp : r.status ≠ RouteStatus.EXPIRED ∧ r.departure.epoch < now
  · rw [decide_eq_true hp]
    apply List.contains_iff_exists_mem_beq.mpr
    exact ⟨r.id, List.mem_map.mpr ⟨r, List.mem_filter.mpr ⟨hr, by simpa using hp⟩, rfl⟩, by simp⟩
  · rw [decide_eq_false hp]
    rw [Bool.eq_false_iff]
    intro hcontra
    obtain ⟨a, ha, hbeq⟩ := List.contains_iff_exists_mem_beq.mp hcontra
    obtain ⟨y, hy, hyid⟩ := List.mem_map.mp ha
    have hyr : y = r := by
      apply List.inj_on_of_nodup_map hnd (List.mem_of_mem_filter hy) hr
      rw [hyid]
      exact (by simpa using hbeq : r.id = a).symm
    subst hyr
    exact hp (by simpa using (List.mem_filter.mp hy).2)

/-- C9: every sweep tick (`expire_past_routes`) transitions exactly the
non-EXPIRED routes whose departure is strictly before `now` to EXPIRED; an
already-EXPIRED route is left untouched (so a second sweep changes nothing
about it), and a route whose departure is not in the past is left
untouched. -/
theorem sweep_expires_exactly (db : DB) (now : Int)
    (hnd : (db.routes.map Route.id).Nodup) :
    (∀ r ∈ db.routes, r.status ≠ .EXPIRED → r.departure.epoch < now →
        getMonitoredRouteById (expirePastRoutes db now) r.id =
          some { r with status := .EXPIRED }) ∧
    (∀ r ∈ db.routes, r.status = .EXPIRED →
        getMonitoredRouteById (expirePastRoutes db now) r.id = some r) ∧
    (∀ r ∈ db.routes, ¬ r.departure.epoch < now →
        getMonitoredRouteById (expirePastRoutes db now) r.id = some r) := by
  have hfind : ∀ r ∈ db.routes,
      getMonitoredRouteById (expirePastRoutes db now) r.id =
        some (if decide (r.status ≠ RouteStatus.EXPIRED ∧ r.departure.epoch < now) = true
              then { r with status := .EXPIRED } else r) := by
    intro r hr
    rw [getMonitoredRouteById]
    rw [expirePastRoutes]
    rw [foldl_expire_routes _ db hnd]
    rw [find?_id_map _ _ _ (fun x => by split <;> rfl)]
    rw [find?_id_of_mem db.routes hnd r hr]
    rw [Option.map_some']
    rw [sweep_contains_iff db now hnd r hr]
  refine ⟨?_, ?_, ?_⟩
  · intro r hr h1 h2
    rw [hfind r hr, decide_eq_true ⟨h1, h2⟩]
    simp
  · intro r hr h1
    rw [hfind r hr, decide_eq_false (by rw [h1]; exact fun hc => hc.1 rfl)]
    simp
  · intro r hr h2
    rw [hfind r hr, decide_eq_false (fun hc => h2 hc.2)]
    simp

/-- Witness for C9: in a database holding the MONITORING route 1 with past
departure, a sweep at a later instant expires it. -/
theorem sweep_expires_exactly_witness :
    getMonitoredRouteById (expirePastRoutes dbC3 1800000000) routeR.id =
      some { routeR with status := .EXPIRED } :=
  (sweep_expires_exactly dbC3 1800000000 (by simp [dbC3, routeR])).1 routeR
    (by simp [dbC3]) (by intro h; exact RouteStatus.noConfusion h) (by decide)

/-! ## Claim C10 -/

/-- C10: a `check_single_route` unit whose route is missing at execution time
or not in MONITORING state performs no upstream availability call, queues no
notification and changes no state — it merely returns a skip status; and a
unit that reports FOUND necessarily observed the route in MONITORING state. -/
theorem check_single_route_skips (db : DB) (rid : Nat) (out : UpstreamOutcome) :
    (getMonitoredRouteById db rid = none →
        checkSingleRoute db rid out = (db, [], 0, "NOT_FOUND_DB")) ∧
    (∀ r, getMonitoredRouteById db rid = some r → r.status ≠ .MONITORING →
        checkSingleRoute db rid out = (db, [], 0, "NOT_MONITORING")) ∧
    ((checkSingleRoute db rid out).2.2.2 = "FOUND" →
        ∃ r, getMonitoredRouteById db rid = some r ∧ r.status = .MONITORING) := by
  refine ⟨?_, ?_, ?_⟩
  · intro h
    simp [checkSingleRoute, checkStart, h]
  · intro r h hs
    simp [checkSingleRoute, checkStart, h, hs]
  · intro h
    rcases hf : getMonitoredRouteById db rid with _ | r
    · have heq : checkSingleRoute db rid out = (db, [], 0, "NOT_FOUND_DB") := by
        simp [checkSingleRoute, checkStart, hf]
      rw [heq] at h
      have h2 : ("NOT_FOUND_DB" : String) = "FOUND" := h
      exact absurd h2 (by decide)
    · by_cases hs : r.status = .MONITORING
      · exact ⟨r, rfl, hs⟩
      · have heq : checkSingleRoute db rid out = (db, [], 0, "NOT_MONITORING") := by
          simp [checkSingleRoute, checkStart, hf, hs]
        rw [heq] at h
        have h2 : ("NOT_MONITORING" : String) = "FOUND" := h
        exact absurd h2 (by decide)

/-- Witness for C10: route 1 of `dbC4` is EXPIRED, so the unit skips. -/
theorem check_single_route_skips_witness :
    checkSingleRoute dbC4 1 .timeout = (dbC4, [], 0, "NOT_MONITORING") :=
  (check_single_route_skips dbC4 1 .timeout).2.1 routeRExpired rfl
    (by intro h; exact RouteStatus.noConfusion h)

/-! ## Claim C8 -/

/-- C8: the restart endpoint rejects a requester without a subscription with
a 403 policy error; rejects a route not in FOUND state with a 409 conflict;
leaves the database untouched and reports `restarted = false` when the live
check still finds seats; and only when the check reports no availability
does it transition the route FOUND → MONITORING with `last_checked_at` reset
to now. -/
theorem restart_spec (db : DB) (uid rid : Nat) (out : UpstreamOutcome) (now : Int)
    (r : Route) (hr : getMonitoredRouteById db rid = some r) :
    (getUserSubscriptionForRoute db uid rid = none →
        ∃ e, restartMonitoringRequest db uid rid out now = .error e ∧ e.statusCode = 403) ∧
    (∀ s, getUserSubscriptionForRoute db uid rid = some s → r.status ≠ .FOUND →
        ∃ e, restartMonitoringRequest db uid rid out now = .error e ∧ e.statusCode = 409) ∧
    (∀ s d, getUserSubscriptionForRoute db uid rid = some s → r.status = .FOUND →
        checkRouteAvailability r out = .ok (true, d) →
        restartMonitoringRequest db uid rid out now = .ok (db, ⟨false, d⟩)) ∧
    (∀ s d, getUserSubscriptionForRoute db uid rid = some s → r.status = .FOUND →
        checkRouteAvailability r out = .ok (false, d) →
        (db.routes.map Route.id).Nodup →
        ∃ db1, restartMonitoringRequest db uid rid out now = .ok (db1, ⟨true, none⟩) ∧
          getMonitoredRouteById db1 rid =
            some { r with status := .MONITORING, lastCheckedAt := some now }) := by
  refine ⟨?_, ?_, ?_, ?_⟩
  · intro h
    rw [restartMonitoringRequest, hr, h]
    exact ⟨_, rfl, rfl⟩
  · intro s hs hst
    rw [restartMonitoringRequest, hr, hs]
    refine ⟨⟨409, "Sledovani teto trasy nelze restartovat: aktualni stav neni FOUND."⟩, ?_, rfl⟩
    simp [hst]
  · intro s d hs hst hav
    rw [restartMonitoringRequest, hr, hs]
    simp [hst, hav]
  · intro s d hs hst hav hnd
    rw [restartMonitoringRequest, hr, hs]
    refine ⟨setRouteRow db { r with status := .MONITORING, lastCheckedAt := some now },
      ?_, ?_⟩
    · simp [hst, hav, updateRouteStatusAndLastChecked]
    · have hp : (r.id == rid) = true :=
        List.find?_some (p := fun x : Route => x.id == rid) hr
      rw [getMonitoredRouteById, setRouteRow]
      exact find?_update_of_nodup db.routes (fun x => x.id == rid) r
        { r with status := .MONITORING, lastCheckedAt := some now } hr rfl hp hnd

/-- The (R1, A, B) row in FOUND state. -/
def routeRFound : Route := { routeR with status := .FOUND }

/-- Database for the restart scenario: FOUND route with one subscriber. -/
def dbC8 : DB := ⟨[routeRFound], [⟨7, 1⟩], [userU], 2⟩

/-- Witness for C8: a restart whose live check reports zero availability
transitions the concrete FOUND route back to MONITORING. -/
theorem restart_spec_witness :
    ∃ db1, restartMonitoringRequest dbC8 7 1 (.ok (.jobj [])) 999 = .ok (db1, ⟨true, none⟩) ∧
      getMonitoredRouteById db1 1 =
        some { routeRFound with status := .MONITORING, lastCheckedAt := some 999 } :=
  (restart_spec dbC8 7 1 (.ok (.jobj [])) 999 routeRFound rfl).2.2.2 ⟨7, 1⟩ none rfl rfl rfl
    (by simp [dbC8])

/-! ## Claim C5 -/

/-- Worker-scenario database: route 1 in MONITORING with one verified
subscriber. -/
def dbC5 : DB := ⟨[routeR], [⟨7, 1⟩], [userU], 2⟩

/-- Initial worker-system state for the overlap scenario. -/
def s0C5 : SysState := ⟨dbC5, [], [], []⟩

/-- An upstream response with five free seats. -/
def availOut : UpstreamOutcome := .ok (.jobj [("freeSeatsCount", .jnum 5)])

/-- The route-1 snapshot both racing check units read after the second tick
stamped `last_checked_at`. -/
def routeR20 : Route := { routeR with lastCheckedAt := some 20 }

/-- C5 counterexample: no lease exists anywhere in the scheduling code, and
two overlapping ticks violate the claimed mutual exclusion at a concrete
input: both ticks dispatch a check for route 1, both queued units pass the
status gate before either completes — two checks are in flight for route 1
at once — and completing both queues the "found" notification to the same
subscriber twice. -/
theorem overlapping_ticks_two_checks_in_flight :
    (runEvents s0C5 [.tick 10, .tick 20, .start 1, .start 1]).inFlight.length = 2 ∧
    ((runEvents s0C5 [.tick 10, .tick 20, .start 1, .start 1,
        .finish 1 availOut, .finish 1 availOut]).emails.map QueuedEmail.emailTo) =
      ["alice@example.com", "alice@example.com"] ∧
    ((runEvents s0C5 [.tick 10, .tick 20, .start 1, .start 1,
        .finish 1 availOut, .finish 1 availOut]).db.routes.map Route.status) = [.FOUND] := by
  refine ⟨rfl, rfl, rfl⟩

/-- C5 amended: at most one in-flight check per route id is NOT enforced —
there is no lease; `schedule_route_checks` dispatches unconditionally for
every MONITORING route, so overlapping ticks put two checks in flight for
the same route and, whenever the upstream outcome reports seats, queue a
duplicate notification burst to the subscriber.  Only the FOUND transition
itself happens once, because `deactivate_route_sync` flips MONITORING →
FOUND and leaves FOUND rows unchanged. -/
theorem no_lease_duplicate_notifications (out : UpstreamOutcome)
    (h : ∃ d, checkRouteAvailabilitySync routeR20 out = .ok (true, some d)) :
    (runEvents s0C5 [.tick 10, .tick 20, .start 1, .start 1]).inFlight.length = 2 ∧
    ((runEvents s0C5 [.tick 10, .tick 20, .start 1, .start 1, .finish 1 out,
        .finish 1 out]).emails.map QueuedEmail.emailTo) =
      ["alice@example.com", "alice@example.com"] ∧
    ((runEvents s0C5 [.tick 10, .tick 20, .start 1, .start 1, .finish 1 out,
        .finish 1 out]).db.routes.map Route.status) = [.FOUND] := by
  obtain ⟨d, hd⟩ := h
  have hstep : ∀ (s : SysState) (snap : Route),
      s.inFlight.find? (fun p => p.1 == 1) = some (1, snap) →
      checkRouteAvailabilitySync snap out = .ok (true, some d) →
      SysState.step s (.finish 1 out) = { s with
        db := (deactivateRouteSync s.db 1).1
        emails := s.emails ++ (getVerifiedRouteSubscribers s.db 1).map (fun u =>
          ⟨u.email, 1, d.freeSeatsCount, d.bookingLink⟩)
        inFlight := s.inFlight.eraseP (fun p => p.1 == 1) } := by
    intro s snap hfind hav
    simp only [SysState.step, hfind, checkFinish, hav]
  have h4 : runEvents s0C5 [.tick 10, .tick 20, .start 1, .start 1] =
      ⟨⟨[routeR20], [⟨7, 1⟩], [userU], 2⟩, [], [(1, routeR20), (1, routeR20)], []⟩ := by
    rfl
  have h5 : runEvents s0C5 [.tick 10, .tick 20, .start 1, .start 1, .finish 1 out,
      .finish 1 out] =
      SysState.step (SysState.step (runEvents s0C5 [.tick 10, .tick 20, .start 1, .start 1])
        (.finish 1 out)) (.finish 1 out) := by
    rfl
  have e1 : SysState.step
      (⟨⟨[routeR20], [⟨7, 1⟩], [userU], 2⟩, [], [(1, routeR20), (1, routeR20)], []⟩ : SysState)
      (.finish 1 out) =
      ⟨⟨[{ routeR20 with status := .FOUND }], [⟨7, 1⟩], [userU], 2⟩, [], [(1, routeR20)],
       [⟨"alice@example.com", 1, d.freeSeatsCount, d.bookingLink⟩]⟩ := by
    rw [hstep ⟨⟨[routeR20], [⟨7, 1⟩], [userU], 2⟩, [], [(1, routeR20), (1, routeR20)], []⟩
      routeR20 rfl hd]
    rfl
  have e2 : SysState.step
      (⟨⟨[{ routeR20 with status := .FOUND }], [⟨7, 1⟩], [userU], 2⟩, [], [(1, routeR20)],
        [⟨"alice@example.com", 1, d.freeSeatsCount, d.bookingLink⟩]⟩ : SysState)
      (.finish 1 out) =
      ⟨⟨[{ routeR20 with status := .FOUND }], [⟨7, 1⟩], [userU], 2⟩, [], [],
       [⟨"alice@example.com", 1, d.freeSeatsCount, d.bookingLink⟩,
        ⟨"alice@example.com", 1, d.freeSeatsCount, d.bookingLink⟩]⟩ := by
    rw [hstep ⟨⟨[{ routeR20 with status := .FOUND }], [⟨7, 1⟩], [userU], 2⟩, [], [(1, routeR20)],
        [⟨"alice@example.com", 1, d.freeSeatsCount, d.bookingLink⟩]⟩ routeR20 rfl hd]
    rfl
  refine ⟨by rw [h4]; rfl, ?_, ?_⟩ <;>
  · rw [h5, h4, e1, e2]
    rfl

/-- Witness for C5's amended theorem at the concrete five-seat response. -/
theorem no_lease_duplicate_notifications_witness :
    (runEvents s0C5 [.tick 10, .tick 20, .start 1, .start 1]).inFlight.length = 2 ∧
    ((runEvents s0C5 [.tick 10, .tick 20, .start 1, .start 1, .finish 1 availOut,
        .finish 1 availOut]).emails.map QueuedEmail.emailTo) =
      ["alice@example.com", "alice@example.com"] ∧
    ((runEvents s0C5 [.tick 10, .tick 20, .start 1, .start 1, .finish 1 availOut,
        .finish 1 availOut]).db.routes.map Route.status) = [.FOUND] :=
  no_lease_duplicate_notifications availOut ⟨_, rfl⟩

/-! ## Claim C6 -/

/-- A well-formed upstream location-directory body: one country with one
city. -/
def goodLocBody : Json :=
  .jarr [.jobj [("code", .jstr "CZ"),
    ("cities", .jarr [.jobj [("id", .jnum 100), ("name", .jstr "Praha"),
      ("stations", .jarr [])]])]]

/-- The validated directory parsed from `goodLocBody`. -/
def demoLocs : List Location := [⟨"100", "Praha", "CITY", "praha"⟩]

/-- C6 counterexample: a first call with an empty cache and a healthy
upstream succeeds and fills the cache; after the stored key's TTL elapses
Redis drops it (the cache argument is `none` again), and a call whose
refresh then times out returns the 504 error to the caller — not the
previously cached directory.  The same happens when the stored value is
still present but fails validation.  `get_locations` never serves a stale
value and never returns an empty fallback itself. -/
theorem locations_refresh_failure_raises :
    getLocations none (.ok goodLocBody) = .ok (demoLocs, some (serializeLocations demoLocs)) ∧
    getLocations none .timeout =
      .error ⟨504, "Regiojet API timed out (/consts/locations)."⟩ ∧
    getLocations (some (.jarr [.jobj [("id", .jnum 5)]])) .timeout =
      .error ⟨504, "Regiojet API timed out (/consts/locations)."⟩ := by
  refine ⟨rfl, rfl, rfl⟩

/-- C6 amended: `get_locations` serves whatever valid value the shared cache
currently holds, without contacting upstream; but once the cached value is
absent (TTL expiry), malformed, or fails validation on any entry, a refresh
failure is propagated to the caller as an `HTTPException` — the previously
cached value is not served (it no longer exists once the TTL-bounded key
expired) and the function itself never substitutes an empty result; the
empty location map seen by callers on failure comes from their own
fallback handlers. -/
theorem locations_cache_or_error (cache : Option Json) (out : UpstreamOutcome) :
    (∀ locs, getLocationsFromCache cache = some locs →
        getLocations cache out = .ok (locs, cache)) ∧
    (getLocationsFromCache cache = none →
      (out = .timeout →
          getLocations cache out =
            .error ⟨504, "Regiojet API timed out (/consts/locations)."⟩) ∧
      (out = .connectError →
          getLocations cache out =
            .error ⟨503, "Could not connect to Regiojet API (/consts/locations)."⟩) ∧
      (∀ s, out = .httpError s →
          ∃ e, getLocations cache out = .error e ∧
            (e.statusCode = 400 ∨ e.statusCode = 502)) ∧
      (∀ b, out = .ok b → (∀ items, b ≠ .jarr items) →
          getLocations cache out =
            .error ⟨502, "Received unexpected data format from Regiojet API (locations)."⟩)) := by
  constructor
  · intro locs hc
    rw [getLocations, hc]
  · intro hc
    refine ⟨?_, ?_, ?_, ?_⟩
    · intro hout
      subst hout
      rw [getLocations, hc]
      rfl
    · intro hout
      subst hout
      rw [getLocations, hc]
      rfl
    · intro s hout
      subst hout
      rw [getLocations, hc]
      by_cases h4 : s = 400
      · subst h4
        exact ⟨⟨400, "Invalid parameters for Regiojet API (/consts/locations)."⟩,
          rfl, Or.inl rfl⟩
      · refine ⟨⟨502, "Received an error from Regiojet API (/consts/locations)."⟩,
          ?_, Or.inr rfl⟩
        simp [fetchRegiojetApiSync, h4]
    · intro b hout hnotarr
      subst hout
      rw [getLocations, hc]
      rcases b with _ | bb | nn | ss | items | fields
      · rfl
      · rfl
      · rfl
      · rfl
      · exact absurd rfl (hnotarr items)
      · rfl

/-- Witness for C6's amended theorem: the cache-hit case at the demo
directory and the propagated-timeout case at the empty cache. -/
theorem locations_cache_or_error_witness :
    getLocations (some (serializeLocations demoLocs)) .timeout =
      .ok (demoLocs, some (serializeLocations demoLocs)) ∧
    getLocations none .timeout =
      .error ⟨504, "Regiojet API timed out (/consts/locations)."⟩ :=
  ⟨(locations_cache_or_error (some (serializeLocations demoLocs)) .timeout).1 demoLocs rfl,
   ((locations_cache_or_error none .timeout).2 rfl).1 rfl⟩

end TicketSniper
